import Mathlib

/-!
Verification development for a Go forward HTTP proxy server
(`server/server.go`).  The shallow embedding below models, from the
source:

* `cacheKey` — SHA-1 digest (hex) of the canonical URL string;
* the global cache map and per-client request counter map;
* `handleRequestAndCache` (the proxy gateway), `handleConnect` (the
  CONNECT tunnel handler), `rateLimiter` (the admission gate),
  `resetRateLimiter` (the periodic window reset) and `extractIP`;
* the `net/http` ServeMux dispatch induced by the two `HandleFunc`
  registrations in `main`;
* an action trace per request recording lock, map and I/O operations,
  used to reason about critical sections and intra-request ordering.

Machine integers are modelled as `Nat` with explicit reduction
`% 2 ^ 32` where 32-bit overflow matters.  Byte strings (request and
response bodies, cache values) are modelled as `String`; raw bytes
feeding SHA-1 are `List Nat` with each element `< 256`.
-/

/-! ## SHA-1 (crypto/sha1), over byte lists -/

/-- Reduce to a 32-bit word. -/
def w32 (x : Nat) : Nat := x % 2 ^ 32

/-- Left-rotate a 32-bit word by `n` bits (bits.RotateLeft32). -/
def rotl32 (n x : Nat) : Nat := ((x <<< n) ||| (x >>> (32 - n))) % 2 ^ 32

/-- Bitwise complement within 32 bits. -/
def not32 (x : Nat) : Nat := x ^^^ (2 ^ 32 - 1)

/-- Big-endian 32-bit word from four bytes. -/
def bytesToWord (b0 b1 b2 b3 : Nat) : Nat :=
  (b0 % 256) * 2 ^ 24 + (b1 % 256) * 2 ^ 16 + (b2 % 256) * 2 ^ 8 + b3 % 256

/-- SHA-1 message schedule: 80 words from one 64-byte chunk. -/
def sha1Schedule (chunk : List Nat) : List Nat :=
  (List.range 80).foldl
    (fun ws t =>
      if t < 16 then
        ws ++ [bytesToWord (chunk.getD (4 * t) 0) (chunk.getD (4 * t + 1) 0)
                 (chunk.getD (4 * t + 2) 0) (chunk.getD (4 * t + 3) 0)]
      else
        ws ++ [rotl32 1 (ws.getD (t - 3) 0 ^^^ ws.getD (t - 8) 0 ^^^
                 ws.getD (t - 14) 0 ^^^ ws.getD (t - 16) 0)])
    []

/-- SHA-1 round function. -/
def sha1F (t b c d : Nat) : Nat :=
  if t < 20 then (b &&& c) ||| (not32 b &&& d)
  else if t < 40 then b ^^^ c ^^^ d
  else if t < 60 then (b &&& c) ||| (b &&& d) ||| (c &&& d)
  else b ^^^ c ^^^ d

/-- SHA-1 round constants. -/
def sha1K (t : Nat) : Nat :=
  if t < 20 then 0x5A827999
  else if t < 40 then 0x6ED9EBA1
  else if t < 60 then 0x8F1BBCDC
  else 0xCA62C1D6

/-- The five 32-bit hash words. -/
structure SHA1State where
  h0 : Nat
  h1 : Nat
  h2 : Nat
  h3 : Nat
  h4 : Nat

/-- Process one 64-byte chunk. -/
def sha1ProcessChunk (st : SHA1State) (chunk : List Nat) : SHA1State :=
  let ws := sha1Schedule chunk
  let r := (List.range 80).foldl
    (fun (abcde : Nat × Nat × Nat × Nat × Nat) t =>
      let a := abcde.1
      let b := abcde.2.1
      let c := abcde.2.2.1
      let d := abcde.2.2.2.1
      let e := abcde.2.2.2.2
      let temp := w32 (rotl32 5 a + sha1F t b c d + e + sha1K t + ws.getD t 0)
      (temp, a, rotl32 30 b, c, d))
    (st.h0, st.h1, st.h2, st.h3, st.h4)
  ⟨w32 (st.h0 + r.1), w32 (st.h1 + r.2.1), w32 (st.h2 + r.2.2.1),
   w32 (st.h3 + r.2.2.2.1), w32 (st.h4 + r.2.2.2.2)⟩

/-- SHA-1 padding: append 0x80, zero bytes to 56 mod 64, then the
64-bit big-endian bit length. -/
def sha1Pad (msg : List Nat) : List Nat :=
  let bitLen := msg.length * 8
  msg ++ [0x80] ++ List.replicate ((119 - msg.length % 64) % 64) 0 ++
    [bitLen / 2 ^ 56 % 256, bitLen / 2 ^ 48 % 256, bitLen / 2 ^ 40 % 256,
     bitLen / 2 ^ 32 % 256, bitLen / 2 ^ 24 % 256, bitLen / 2 ^ 16 % 256,
     bitLen / 2 ^ 8 % 256, bitLen % 256]

/-- Initial SHA-1 state. -/
def sha1Init : SHA1State :=
  ⟨0x67452301, 0xEFCDAB89, 0x98BADCFE, 0x10325476, 0xC3D2E1F0⟩

/-- Big-endian bytes of a 32-bit word. -/
def wordBytes (x : Nat) : List Nat :=
  [x / 2 ^ 24 % 256, x / 2 ^ 16 % 256, x / 2 ^ 8 % 256, x % 256]

/-- SHA-1 digest: 20 bytes. -/
def sha1Bytes (msg : List Nat) : List Nat :=
  let padded := sha1Pad msg
  let st := (List.range (padded.length / 64)).foldl
    (fun st i => sha1ProcessChunk st ((padded.drop (64 * i)).take 64)) sha1Init
  wordBytes st.h0 ++ wordBytes st.h1 ++ wordBytes st.h2 ++
    wordBytes st.h3 ++ wordBytes st.h4

/-- Lowercase hex digit. -/
def hexDigitChar (n : Nat) : Char :=
  if n < 10 then Char.ofNat (48 + n) else Char.ofNat (87 + n)

/-- Two hex digits of one byte. -/
def hexByteChars (b : Nat) : List Char :=
  [hexDigitChar (b / 16 % 16), hexDigitChar (b % 16)]

/-- Hex string of a byte list (Go fmt %x on a byte slice). -/
def bytesToHex (bs : List Nat) : String :=
  String.mk (bs.map hexByteChars).flatten

/-- UTF-8 encoding of one character (Go string-to-byte-slice conversion). -/
def utf8Bytes (c : Char) : List Nat :=
  let n := c.toNat
  if n < 0x80 then [n]
  else if n < 0x800 then [0xC0 ||| (n >>> 6), 0x80 ||| (n &&& 0x3F)]
  else if n < 0x10000 then
    [0xE0 ||| (n >>> 12), 0x80 ||| ((n >>> 6) &&& 0x3F), 0x80 ||| (n &&& 0x3F)]
  else
    [0xF0 ||| (n >>> 18), 0x80 ||| ((n >>> 12) &&& 0x3F),
     0x80 ||| ((n >>> 6) &&& 0x3F), 0x80 ||| (n &&& 0x3F)]

/-- UTF-8 bytes of a string. -/
def strBytes (s : String) : List Nat := (s.data.map utf8Bytes).flatten

/-- Go `cacheKey`: SHA-1 of the canonical URL string, as lowercase hex
(`fmt.Sprintf("%x", h.Sum(nil))`).  The argument is the canonical
string form `u.String()` of the parsed URL. -/
def cacheKey (u : String) : String := bytesToHex (sha1Bytes (strBytes u))

/-! ## HTTP model -/

/-- Status constants from net/http used by the server. -/
def statusOK : Nat := 200

/-- Status 400. -/
def statusBadRequest : Nat := 400

/-- Status 429. -/
def statusTooManyRequests : Nat := 429

/-- Status 500. -/
def statusInternalServerError : Nat := 500

/-- Status 503. -/
def statusServiceUnavailable : Nat := 503

/-- Wire-observable state of an `http.ResponseWriter`: the status line
actually sent (the first `WriteHeader` wins; later calls are
superfluous and ignored), the header fields added before the status
was written, and the accumulated body bytes. -/
structure RW where
  status : Option Nat
  headers : List (String × String)
  body : String

/-- Fresh response writer. -/
def rwInit : RW := ⟨none, [], ""⟩

/-- WriteHeader: only the first call takes effect (net/http ignores a
superfluous second call). -/
def writeHeader (rw : RW) (code : Nat) : RW :=
  if rw.status.isSome then rw else ⟨some code, rw.headers, rw.body⟩

/-- Write: an implicit `WriteHeader(200)` happens if no status was
written yet, then the bytes are appended to the body. -/
def rwWrite (rw : RW) (b : String) : RW :=
  let rw := if rw.status.isSome then rw else ⟨some statusOK, rw.headers, rw.body⟩
  ⟨rw.status, rw.headers, rw.body ++ b⟩

/-- Header().Add. -/
def addHeader (rw : RW) (k v : String) : RW :=
  ⟨rw.status, rw.headers ++ [(k, v)], rw.body⟩

/-- Go `http.Error(w, msg, code)`: writes the status (if not already
written) and the message with a trailing newline.  The Content-Type
header it sets is not wire-effective when a status was already sent
and is not inspected by any claim, so it is not modelled. -/
def httpError (rw : RW) (msg : String) (code : Nat) : RW :=
  rwWrite (writeHeader rw code) (msg ++ "\n")

/-- Status observed by the client (default success when only a body
write happened). -/
def observedStatus (rw : RW) : Nat := rw.status.getD statusOK

/-- Inbound request, fields the server reads. -/
structure Request where
  method : String
  requestURI : String
  host : String
  headers : List (String × String)
  body : String
  remoteAddr : String

/-! ## Shared state and action traces -/

/-- The cache map `cache : map[string][]byte` (lookup returns the entry
and a found flag). -/
abbrev Cache : Type := String → Option String

/-- The counter map `clients : map[string]int` (lookup of an absent key
returns the zero value 0). -/
abbrev ClientMap : Type := String → Nat

/-- Empty counter map (`make(map[string]int)`). -/
def emptyClients : ClientMap := fun _ => 0

/-- The three mutexes of the server. -/
inductive MutexId
  | cacheMu
  | clientsMu
  | logMu
deriving DecidableEq

/-- Atomic actions a request path performs, in program order: lock
operations, guarded map accesses, and I/O (log writes, network
operations, writes to the client). -/
inductive Act
  | lock (m : MutexId)
  | unlock (m : MutexId)
  | cacheRead (key : String)
  | cacheWrite (key : String)
  | clientsRead (ip : String)
  | clientsWrite (ip : String)
  | clientsReset
  | logWrite (msg : String)
  | netDial
  | upstreamDo
  | readBody
  | writeClient
deriving DecidableEq

/-- Trace of `logEvent(format, ...)`: takes the log mutex, writes to
stderr and the log file, releases. -/
def logActs (msg : String) : List Act :=
  [Act.lock MutexId.logMu, Act.logWrite msg, Act.unlock MutexId.logMu]

/-- Whether an action is I/O (as opposed to a lock operation or an
in-memory map access). -/
def ioAct : Act → Bool
  | Act.logWrite _ => true
  | Act.netDial => true
  | Act.upstreamDo => true
  | Act.readBody => true
  | Act.writeClient => true
  | _ => false

/-- Check that no I/O action occurs while mutex `m` is held; `d` is the
current hold depth. -/
def noIOLocked (m : MutexId) (d : Nat) : List Act → Bool
  | [] => true
  | Act.lock m' :: rest => noIOLocked m (if m' = m then d + 1 else d) rest
  | Act.unlock m' :: rest => noIOLocked m (if m' = m then d - 1 else d) rest
  | a :: rest => (!ioAct a || d == 0) && noIOLocked m d rest

/-! ## The proxy gateway `handleRequestAndCache` -/

/-- Upstream response as seen by the proxy: status, headers, and the
result of `io.ReadAll` on its body (`none` models a read failure). -/
structure UpResp where
  status : Nat
  headers : List (String × String)
  body : Option String

/-- The outbound request built by the gateway: same method, the parsed
URL's canonical string, all inbound headers copied verbatim, and the
inbound body stream. -/
structure OutReq where
  method : String
  url : String
  headers : List (String × String)
  body : String

/-- External world of one gateway request: `url.Parse` (returning the
canonical string `u.String()` on success), whether `http.NewRequest`
succeeds, and the upstream transport `client.Do` (`none` models a
dial/transport error). -/
structure GEnv where
  parse : String → Option String
  newReqOk : Bool
  upstream : OutReq → Option UpResp

/-- Result of one handler run: final response-writer state, the cache
map afterwards, how many times an upstream dispatch was performed,
whether a tunnel relay was started, and the action trace. -/
structure HandlerOut where
  resp : RW
  cache : Cache
  upstreamCalls : Nat
  tunnel : Bool
  acts : List Act

/-- Go strings.HasPrefix, on character lists. -/
def strStartsWith (s pre : String) : Bool := pre.data.isPrefixOf s.data

/-- Go strings.HasSuffix, on character lists. -/
def strEndsWith (s suf : String) : Bool := suf.data.isSuffixOf s.data

/-- Lines 49–51: a non-absolute RequestURI is rewritten to an absolute
URL using the request's declared host. -/
def effectiveURI (req : Request) : String :=
  if !(strStartsWith req.requestURI "http://") && !(strStartsWith req.requestURI "https://") then
    "http://" ++ req.host ++ req.requestURI
  else req.requestURI

/-- The outbound request for a given canonical URL (lines 71–81). -/
def proxyReq (req : Request) (canon : String) : OutReq :=
  ⟨req.method, canon, req.headers, req.body⟩

/-- Cache-lookup critical section (lines 61–69). -/
def lookupActs (key : String) : List Act :=
  [Act.lock MutexId.cacheMu, Act.cacheRead key, Act.unlock MutexId.cacheMu]

/-- Go `handleRequestAndCache` (lines 46–112): absolutize and parse the
URL (parse failure → 400), look the digest up in the cache (hit →
write the stored body, default status, no header copy), otherwise
build the outbound request (failure → 500), dispatch upstream
(transport failure → 500, logged), read the body (failure → 500,
logged), store the body under the digest, copy the upstream headers,
and relay status and body. -/
def handleRequestAndCache (env : GEnv) (req : Request) (cache : Cache) : HandlerOut :=
  let uri := effectiveURI req
  match env.parse uri with
  | none => ⟨httpError rwInit "Bad request" statusBadRequest, cache, 0, false, [Act.writeClient]⟩
  | some canon =>
    let key := cacheKey canon
    match cache key with
    | some cachedResp =>
      ⟨rwWrite rwInit cachedResp, cache, 0, false,
        lookupActs key ++ logActs "CACHE HIT: %s" ++ [Act.writeClient] ++
          logActs "Served %s in %v\n"⟩
    | none =>
      if !env.newReqOk then
        ⟨httpError rwInit "Failed to create request" statusInternalServerError, cache, 0, false,
          lookupActs key ++ [Act.writeClient]⟩
      else
        match env.upstream (proxyReq req canon) with
        | none =>
          ⟨httpError rwInit "Failed to forward request" statusInternalServerError, cache, 1, false,
            lookupActs key ++ [Act.upstreamDo, Act.writeClient] ++
              logActs "Failed to forward request: %s, error: %v"⟩
        | some u =>
          match u.body with
          | none =>
            ⟨httpError rwInit "Failed to read response body" statusInternalServerError, cache, 1, false,
              lookupActs key ++ [Act.upstreamDo, Act.readBody, Act.writeClient] ++
                logActs "Failed to read response body: %s, error: %v"⟩
          | some body =>
            ⟨rwWrite (writeHeader (u.headers.foldl (fun rw kv => addHeader rw kv.1 kv.2) rwInit)
                u.status) body,
              Function.update cache key (some body), 1, false,
              lookupActs key ++ [Act.upstreamDo, Act.readBody, Act.lock MutexId.cacheMu,
                Act.cacheWrite key, Act.unlock MutexId.cacheMu, Act.writeClient] ++
                logActs "Served %s in %v\n"⟩

/-! ## The tunnel handler `handleConnect` -/

/-- External world of one CONNECT request: whether the TCP dial to the
target succeeds, whether the ResponseWriter supports `http.Hijacker`,
and whether the `Hijack()` call itself succeeds. -/
structure CEnv where
  dialOk : Bool
  hijackSupported : Bool
  hijackOk : Bool

/-- Go `handleConnect` (lines 114–140): dial the target (failure → 503,
logged); write the success status; assert the hijack capability
(unsupported → `http.Error` 500, which is superfluous after the
success status); hijack (failure → `http.Error` 503, logged); on
success start the two relay copies. -/
def handleConnect (env : CEnv) (_req : Request) (cache : Cache) : HandlerOut :=
  if !env.dialOk then
    ⟨httpError rwInit "Failed to connect to destination" statusServiceUnavailable, cache, 0, false,
      [Act.netDial, Act.writeClient] ++ logActs "Failed to connect to destination: %s, error: %v"⟩
  else
    let rw := writeHeader rwInit statusOK
    if !env.hijackSupported then
      ⟨httpError rw "Hijacking not supported" statusInternalServerError, cache, 0, false,
        [Act.netDial, Act.writeClient, Act.writeClient]⟩
    else if !env.hijackOk then
      ⟨httpError rw "Failed to hijack connection" statusServiceUnavailable, cache, 0, false,
        [Act.netDial, Act.writeClient, Act.writeClient] ++
          logActs "Failed to hijack connection: %s, error: %v"⟩
    else
      ⟨rw, cache, 0, true, [Act.netDial, Act.writeClient]⟩

/-! ## The rate limiter and the window reset -/

/-- The fixed per-window ceiling (`maxRequestsPerMinute = 60`). -/
def maxRequestsPerMinute : Nat := 60

/-- Split a character list on the colon character. -/
def splitOnColon : List Char → List (List Char)
  | [] => [[]]
  | c :: rest =>
    if c = ':' then [] :: splitOnColon rest
    else
      match splitOnColon rest with
      | [] => [[c]]
      | h :: t => (c :: h) :: t

/-- Modelled from net.SplitHostPort for the address forms arising here:
an unbracketed `host:port` splits at its single colon; an address with
no colon or with several unbracketed colons is an error (`none`). -/
def splitHostPort (s : String) : Option (String × String) :=
  match splitOnColon s.data with
  | [h, p] => some (String.mk h, String.mk p)
  | _ => none

/-- Go `extractIP` (lines 142–151): split host:port when a colon is
present, falling back to the raw address if the split fails. -/
def extractIP (remoteAddr : String) : String :=
  if remoteAddr.data.contains ':' then
    match splitHostPort remoteAddr with
    | none => remoteAddr
    | some hp => hp.1
  else remoteAddr

/-- Result of the rate-limited pipeline for one request. -/
structure PipeOut where
  resp : RW
  cache : Cache
  clients : ClientMap
  handlerRan : Bool
  upstreamCalls : Nat
  tunnel : Bool
  acts : List Act

/-- Go `rateLimiter` (lines 153–169): under the clients lock, read the
current count for the client IP and log it; at or above the ceiling,
unlock, reject with 429 and log, without invoking the downstream
handler; otherwise store count+1, unlock, and invoke the downstream
handler. -/
def rateLimiter (next : Cache → HandlerOut) (remoteAddr : String)
    (cache : Cache) (clients : ClientMap) : PipeOut :=
  let clientIP := extractIP remoteAddr
  let count := clients clientIP
  let pre := [Act.lock MutexId.clientsMu, Act.clientsRead clientIP] ++
    logActs "Client %s has made %d requests"
  if count ≥ maxRequestsPerMinute then
    ⟨httpError rwInit "Too Many Requests" statusTooManyRequests, cache, clients, false, 0, false,
      pre ++ [Act.unlock MutexId.clientsMu, Act.writeClient] ++
        logActs "Rate limit exceeded for client %s"⟩
  else
    let out := next cache
    ⟨out.resp, out.cache, Function.update clients clientIP (count + 1), true,
      out.upstreamCalls, out.tunnel,
      pre ++ [Act.clientsWrite clientIP, Act.unlock MutexId.clientsMu] ++ out.acts⟩

/-- The rate-limited proxy gateway, as registered in `main`
(`rateLimiter(handleRequestAndCache)`). -/
def servedByProxy (env : GEnv) (req : Request) (cache : Cache) (clients : ClientMap) : PipeOut :=
  rateLimiter (handleRequestAndCache env req) req.remoteAddr cache clients

/-- The rate-limited tunnel handler, as registered in `main`
(`rateLimiter(handleConnect)`). -/
def servedByConnect (env : CEnv) (req : Request) (cache : Cache) (clients : ClientMap) : PipeOut :=
  rateLimiter (handleConnect env req) req.remoteAddr cache clients

/-- One iteration of `resetRateLimiter` (lines 171–178): under the
clients lock, replace the whole counter map with a fresh empty one. -/
def resetClients : ClientMap → ClientMap := fun _ => emptyClients

/-- Action trace of one reset iteration. -/
def resetActs : List Act :=
  [Act.lock MutexId.clientsMu, Act.clientsReset, Act.unlock MutexId.clientsMu]

/-- Iterate the rate-limited gateway `n` times with the same request
(same client IP), threading cache and counters. -/
def runRequests (env : GEnv) (req : Request) : Nat → Cache → ClientMap → Cache × ClientMap
  | 0, cache, clients => (cache, clients)
  | n + 1, cache, clients =>
    let out := servedByProxy env req cache clients
    runRequests env req n out.cache out.clients

/-! ## ServeMux dispatch (`main`, lines 194–195) -/

/-- The handler a request is dispatched to. -/
inductive HandlerId
  | gateway
  | connect
  | notFound
deriving DecidableEq

/-- Go net/http `pathMatch`: a pattern ending in a slash matches any
path it prefixes; any other pattern matches only exactly. -/
def pathMatch (pattern path : String) : Bool :=
  if strEndsWith pattern "/" then strStartsWith path pattern else pattern == path

/-- Go net/http `cleanPath`, restricted to the path forms arising here:
the empty path becomes "/"; dot-segment and duplicate-slash cleaning
of `path.Clean` is not modelled (all compared paths are already
clean). -/
def cleanPath (p : String) : String := if p = "" then "/" else p

/-- ServeMux dispatch for the two registrations in `main`:
`HandleFunc("/", rateLimiter(handleRequestAndCache))` and
`HandleFunc("/CONNECT", rateLimiter(handleConnect))`.  The mux picks
the longest registered pattern matching the request's URL path; for
non-CONNECT methods the path is cleaned first; no registered pattern
matching yields the 404 not-found handler.  The request method never
selects the handler. -/
def muxDispatch (method path : String) : HandlerId :=
  let p := if method == "CONNECT" then path else cleanPath path
  if pathMatch "/CONNECT" p then HandlerId.connect
  else if pathMatch "/" p then HandlerId.gateway
  else HandlerId.notFound

/-! ## Claim theorems -/

/-- C1: the claim says the dispatch after the rate-limit gate routes by
request method (CONNECT → `handleConnect`, everything else →
`handleRequestAndCache`).  Evaluating the registered ServeMux
dispatch shows it routes by URL path instead: a genuine CONNECT
request (authority-form target, empty URL path) matches neither
registered pattern and is served the 404 not-found handler, never
reaching `handleConnect` or even the rate limiter; a CONNECT with an
origin-form path goes to the gateway; and a non-CONNECT GET whose
path is literally "/CONNECT" is routed to `handleConnect`. -/
theorem muxDispatch_routes_by_path_not_method :
    muxDispatch "CONNECT" "" = HandlerId.notFound ∧
    muxDispatch "CONNECT" "/foo" = HandlerId.gateway ∧
    muxDispatch "GET" "/CONNECT" = HandlerId.connect ∧
    muxDispatch "GET" "/index.html" = HandlerId.gateway := by decide

/-- C3: on a cache hit, the stored body is written to the client exactly
as captured, with the default success status, no headers copied from
any prior upstream response, no upstream dispatch, and the cache
unchanged. -/
theorem cacheHit_serves_stored_body (env : GEnv) (req : Request) (cache : Cache)
    (canon b : String)
    (hparse : env.parse (effectiveURI req) = some canon)
    (hhit : cache (cacheKey canon) = some b) :
    (handleRequestAndCache env req cache).resp.body = b ∧
    observedStatus (handleRequestAndCache env req cache).resp = statusOK ∧
    (handleRequestAndCache env req cache).resp.headers = [] ∧
    (handleRequestAndCache env req cache).upstreamCalls = 0 ∧
    (handleRequestAndCache env req cache).cache = cache := by
  simp [handleRequestAndCache, hparse, hhit, rwWrite, rwInit, observedStatus, statusOK]

/-- Witness for C3 at a concrete request, environment and cache. -/
theorem cacheHit_serves_stored_body_witness :
    (⟨some, true, fun _ => none⟩ : GEnv).parse
        (effectiveURI ⟨"GET", "http://h/p", "h", [], "", "9.9.9.9:1"⟩) = some "http://h/p" ∧
    ((fun _ => some "cached") : Cache) (cacheKey "http://h/p") = some "cached" ∧
    (handleRequestAndCache ⟨some, true, fun _ => none⟩
      ⟨"GET", "http://h/p", "h", [], "", "9.9.9.9:1"⟩ (fun _ => some "cached")).resp.body = "cached" :=
  ⟨rfl, rfl,
    (cacheHit_serves_stored_body ⟨some, true, fun _ => none⟩
      ⟨"GET", "http://h/p", "h", [], "", "9.9.9.9:1"⟩ (fun _ => some "cached")
      "http://h/p" "cached" rfl rfl).1⟩

/-- C7 (amended): when the dial succeeds but the connection does not
support hijacking, the handler attempts an internal-error response,
but the success status has already been written, so the client
observes the success status with the error text as body; no tunnel
relaying is started. -/
theorem connect_hijack_unsupported (env : CEnv) (req : Request) (cache : Cache)
    (hdial : env.dialOk = true) (hsup : env.hijackSupported = false) :
    observedStatus (handleConnect env req cache).resp = statusOK ∧
    (handleConnect env req cache).resp.body = "Hijacking not supported\n" ∧
    (handleConnect env req cache).tunnel = false := by
  simp [handleConnect, hdial, hsup, httpError, writeHeader, rwWrite, rwInit, observedStatus]

/-- Witness for C7 at a concrete CONNECT request. -/
theorem connect_hijack_unsupported_witness :
    (⟨true, false, true⟩ : CEnv).dialOk = true ∧
    (⟨true, false, true⟩ : CEnv).hijackSupported = false ∧
    (handleConnect ⟨true, false, true⟩
      ⟨"CONNECT", "example.com:443", "example.com:443", [], "", "1.2.3.4:5678"⟩
      (fun _ => none)).tunnel = false :=
  ⟨rfl, rfl,
    (connect_hijack_unsupported ⟨true, false, true⟩
      ⟨"CONNECT", "example.com:443", "example.com:443", [], "", "1.2.3.4:5678"⟩
      (fun _ => none) rfl rfl).2.2⟩

/-- C7 counterexample: at a concrete CONNECT request whose dial succeeds
but whose connection cannot be hijacked, the client observes the
success status, not the internal-error status the claim asserts. -/
theorem connect_hijack_unsupported_counterexample :
    observedStatus (handleConnect ⟨true, false, true⟩
      ⟨"CONNECT", "example.com:443", "example.com:443", [], "", "1.2.3.4:5678"⟩
      (fun _ => none)).resp = statusOK ∧
    observedStatus (handleConnect ⟨true, false, true⟩
      ⟨"CONNECT", "example.com:443", "example.com:443", [], "", "1.2.3.4:5678"⟩
      (fun _ => none)).resp ≠ statusInternalServerError := by decide

/-- Recognize a cache-lookup action. -/
def isCacheRead : Act → Bool
  | Act.cacheRead _ => true
  | _ => false

/-- Recognize a cache-store action. -/
def isCacheWrite : Act → Bool
  | Act.cacheWrite _ => true
  | _ => false

/-- Recognize the upstream dispatch. -/
def isUpstreamDo : Act → Bool
  | Act.upstreamDo => true
  | _ => false

/-- Recognize the upstream body read (response capture). -/
def isReadBody : Act → Bool
  | Act.readBody => true
  | _ => false

/-- Recognize a write to the client. -/
def isWriteClient : Act → Bool
  | Act.writeClient => true
  | _ => false

/-- Folding `Header().Add` over a header list appends it. -/
theorem foldl_addHeader (l : List (String × String)) (rw : RW) :
    l.foldl (fun rw kv => addHeader rw kv.1 kv.2) rw = ⟨rw.status, rw.headers ++ l, rw.body⟩ := by
  induction l generalizing rw with
  | nil => simp
  | cons kv rest ih =>
    rw [List.foldl_cons, ih]
    simp [addHeader]

/-- Appending to the empty string. -/
theorem empty_str_append (s : String) : "" ++ s = s := rfl

/-- C4: on a cache miss whose upstream fetch and body read succeed, the
buffered upstream body is stored under the request's digest (other
keys untouched), the upstream headers are copied onto the client
response, the upstream status and body are relayed, exactly one
upstream dispatch happens, and in the action trace the cache lookup
precedes the upstream dispatch, which precedes the body capture,
which precedes both the cache store and the client write. -/
theorem cacheMiss_success_stores_and_relays (env : GEnv) (req : Request) (cache : Cache)
    (canon b : String) (u : UpResp)
    (hparse : env.parse (effectiveURI req) = some canon)
    (hmiss : cache (cacheKey canon) = none)
    (hreq : env.newReqOk = true)
    (hup : env.upstream (proxyReq req canon) = some u)
    (hbody : u.body = some b) :
    (handleRequestAndCache env req cache).cache (cacheKey canon) = some b ∧
    (∀ k, k ≠ cacheKey canon → (handleRequestAndCache env req cache).cache k = cache k) ∧
    (handleRequestAndCache env req cache).resp.headers = u.headers ∧
    observedStatus (handleRequestAndCache env req cache).resp = u.status ∧
    (handleRequestAndCache env req cache).resp.body = b ∧
    (handleRequestAndCache env req cache).upstreamCalls = 1 ∧
    ((handleRequestAndCache env req cache).acts.findIdx isCacheRead <
      (handleRequestAndCache env req cache).acts.findIdx isUpstreamDo ∧
     (handleRequestAndCache env req cache).acts.findIdx isUpstreamDo <
      (handleRequestAndCache env req cache).acts.findIdx isReadBody ∧
     (handleRequestAndCache env req cache).acts.findIdx isReadBody <
      (handleRequestAndCache env req cache).acts.findIdx isCacheWrite ∧
     (handleRequestAndCache env req cache).acts.findIdx isCacheWrite <
      (handleRequestAndCache env req cache).acts.findIdx isWriteClient ∧
     (handleRequestAndCache env req cache).acts.findIdx isWriteClient <
      (handleRequestAndCache env req cache).acts.length) := by
  have h : List.foldl (fun rw kv => addHeader rw kv.1 kv.2) (⟨none, [], ""⟩ : RW) u.headers
      = ⟨none, u.headers, ""⟩ := by
    simpa using foldl_addHeader u.headers ⟨none, [], ""⟩
  refine ⟨?_, ?_, ?_, ?_, ?_, ?_, ?_⟩
  · simp [handleRequestAndCache, hparse, hmiss, hreq, hup, hbody]
  · intro k hk
    simp only [handleRequestAndCache, hparse, hmiss, hreq, hup, hbody]
    exact Function.update_noteq hk _ _
  · simp [handleRequestAndCache, hparse, hmiss, hreq, hup, hbody, h, rwInit, writeHeader, rwWrite]
  · simp [handleRequestAndCache, hparse, hmiss, hreq, hup, hbody, h, rwInit, writeHeader,
      rwWrite, observedStatus]
  · simp [handleRequestAndCache, hparse, hmiss, hreq, hup, hbody, h, rwInit, writeHeader,
      rwWrite, empty_str_append]
  · simp [handleRequestAndCache, hparse, hmiss, hreq, hup, hbody]
  · simp [handleRequestAndCache, hparse, hmiss, hreq, hup, hbody, lookupActs, logActs,
      List.findIdx_cons, isCacheRead, isCacheWrite, isUpstreamDo, isReadBody, isWriteClient]

/-- Witness for C4 at a concrete request, environment and cache. -/
theorem cacheMiss_success_stores_and_relays_witness :
    (⟨some, true, fun _ => some ⟨204, [("X-T", "1")], some "BODY"⟩⟩ : GEnv).parse
      (effectiveURI ⟨"GET", "http://h/p", "h", [], "", "9.9.9.9:1"⟩) = some "http://h/p" ∧
    ((fun _ => none) : Cache) (cacheKey "http://h/p") = none ∧
    (handleRequestAndCache ⟨some, true, fun _ => some ⟨204, [("X-T", "1")], some "BODY"⟩⟩
      ⟨"GET", "http://h/p", "h", [], "", "9.9.9.9:1"⟩ (fun _ => none)).upstreamCalls = 1 :=
  ⟨rfl, rfl,
    (cacheMiss_success_stores_and_relays
      ⟨some, true, fun _ => some ⟨204, [("X-T", "1")], some "BODY"⟩⟩
      ⟨"GET", "http://h/p", "h", [], "", "9.9.9.9:1"⟩ (fun _ => none)
      "http://h/p" "BODY" ⟨204, [("X-T", "1")], some "BODY"⟩
      rfl rfl rfl rfl rfl).2.2.2.2.2.1⟩

/-- A below-ceiling count admits: the counter is bumped by one and the
downstream handler's outcome is returned. -/
theorem rateLimiter_admits (next : Cache → HandlerOut) (remoteAddr : String)
    (cache : Cache) (clients : ClientMap)
    (h : clients (extractIP remoteAddr) < maxRequestsPerMinute) :
    rateLimiter next remoteAddr cache clients =
      ⟨(next cache).resp, (next cache).cache,
        Function.update clients (extractIP remoteAddr) (clients (extractIP remoteAddr) + 1),
        true, (next cache).upstreamCalls, (next cache).tunnel,
        [Act.lock MutexId.clientsMu, Act.clientsRead (extractIP remoteAddr)] ++
          logActs "Client %s has made %d requests" ++
          [Act.clientsWrite (extractIP remoteAddr), Act.unlock MutexId.clientsMu] ++
          (next cache).acts⟩ := by
  simp only [rateLimiter]
  rw [if_neg (Nat.not_le.mpr h)]

/-- An at-or-above-ceiling count rejects with 429 and no state change. -/
theorem rateLimiter_rejects (next : Cache → HandlerOut) (remoteAddr : String)
    (cache : Cache) (clients : ClientMap)
    (h : clients (extractIP remoteAddr) ≥ maxRequestsPerMinute) :
    rateLimiter next remoteAddr cache clients =
      ⟨httpError rwInit "Too Many Requests" statusTooManyRequests, cache, clients, false, 0, false,
        [Act.lock MutexId.clientsMu, Act.clientsRead (extractIP remoteAddr)] ++
          logActs "Client %s has made %d requests" ++
          [Act.unlock MutexId.clientsMu, Act.writeClient] ++
          logActs "Rate limit exceeded for client %s"⟩ := by
  simp only [rateLimiter]
  rw [if_pos h]

/-- Issuing `n` further requests while the window quota suffices raises
the client's counter by exactly `n`. -/
theorem runRequests_count (env : GEnv) (req : Request) (n : Nat) :
    ∀ (cache : Cache) (clients : ClientMap),
      clients (extractIP req.remoteAddr) + n ≤ maxRequestsPerMinute →
      (runRequests env req n cache clients).2 (extractIP req.remoteAddr) =
        clients (extractIP req.remoteAddr) + n := by
  induction n with
  | zero => intro cache clients _; simp [runRequests]
  | succ n ih =>
    intro cache clients h
    have hlt : clients (extractIP req.remoteAddr) < maxRequestsPerMinute := by omega
    simp only [runRequests, servedByProxy,
      rateLimiter_admits (handleRequestAndCache env req) req.remoteAddr cache clients hlt]
    rw [ih _ _ (by rw [Function.update_same]; omega), Function.update_same]
    omega

/-- C2: a request finding the client's counter below the ceiling is
admitted — the counter is incremented by exactly one (other IPs
untouched) and the write happens in the trace before the downstream
handler's actions; a request finding it at or above the ceiling is
rejected with a too-many-requests response, the counter map is
unchanged, and the downstream handler is not invoked; consequently,
starting from a fresh window, each of the first 60 requests from one
IP is admitted, leaving the counter at 60, and the 61st is
rejected. -/
theorem rateLimiter_ceiling_behavior (env : GEnv) (req : Request) (cache : Cache)
    (clients : ClientMap) :
    (clients (extractIP req.remoteAddr) < maxRequestsPerMinute →
      (servedByProxy env req cache clients).handlerRan = true ∧
      (servedByProxy env req cache clients).clients (extractIP req.remoteAddr) =
        clients (extractIP req.remoteAddr) + 1 ∧
      (∀ ip, ip ≠ extractIP req.remoteAddr →
        (servedByProxy env req cache clients).clients ip = clients ip) ∧
      (∃ pre, (servedByProxy env req cache clients).acts =
          pre ++ (handleRequestAndCache env req cache).acts ∧
        Act.clientsWrite (extractIP req.remoteAddr) ∈ pre)) ∧
    (clients (extractIP req.remoteAddr) ≥ maxRequestsPerMinute →
      (servedByProxy env req cache clients).handlerRan = false ∧
      (servedByProxy env req cache clients).clients = clients ∧
      observedStatus (servedByProxy env req cache clients).resp = statusTooManyRequests ∧
      (servedByProxy env req cache clients).resp.body = "Too Many Requests\n" ∧
      (servedByProxy env req cache clients).upstreamCalls = 0) ∧
    (∀ n, n ≤ maxRequestsPerMinute →
      (runRequests env req n cache emptyClients).2 (extractIP req.remoteAddr) = n) ∧
    (∀ n, n < maxRequestsPerMinute →
      (servedByProxy env req (runRequests env req n cache emptyClients).1
        (runRequests env req n cache emptyClients).2).handlerRan = true) ∧
    (servedByProxy env req (runRequests env req maxRequestsPerMinute cache emptyClients).1
      (runRequests env req maxRequestsPerMinute cache emptyClients).2).handlerRan = false := by
  refine ⟨?_, ?_, ?_, ?_, ?_⟩
  · intro h
    rw [servedByProxy, rateLimiter_admits _ _ _ _ h]
    refine ⟨rfl, Function.update_same _ _ _, fun ip hip => Function.update_noteq hip _ _, ?_⟩
    exact ⟨[Act.lock MutexId.clientsMu, Act.clientsRead (extractIP req.remoteAddr)] ++
      logActs "Client %s has made %d requests" ++
      [Act.clientsWrite (extractIP req.remoteAddr), Act.unlock MutexId.clientsMu],
      by simp, by simp [logActs]⟩
  · intro h
    rw [servedByProxy, rateLimiter_rejects _ _ _ _ h]
    refine ⟨rfl, rfl, rfl, ?_, rfl⟩
    simp [httpError, writeHeader, rwWrite, rwInit, empty_str_append]
  · intro n hn
    have := runRequests_count env req n cache emptyClients (by simpa [emptyClients] using hn)
    simpa [emptyClients] using this
  · intro n hn
    have hc : (runRequests env req n cache emptyClients).2 (extractIP req.remoteAddr) = n := by
      have := runRequests_count env req n cache emptyClients
        (by simp [emptyClients]; omega)
      simpa [emptyClients] using this
    rw [servedByProxy, rateLimiter_admits _ _ _ _ (by rw [hc]; exact hn)]
  · have hc : (runRequests env req maxRequestsPerMinute cache emptyClients).2
        (extractIP req.remoteAddr) = maxRequestsPerMinute := by
      have := runRequests_count env req maxRequestsPerMinute cache emptyClients
        (by simp [emptyClients])
      simpa [emptyClients] using this
    rw [servedByProxy, rateLimiter_rejects _ _ _ _ (by rw [hc])]

/-- Witness for C2 at a concrete request and states, discharging the
below-ceiling and at-ceiling hypotheses at counts 59 and 60. -/
theorem rateLimiter_ceiling_behavior_witness :
    ((fun _ => 59) : ClientMap) (extractIP "9.9.9.9:1") < maxRequestsPerMinute ∧
    (servedByProxy ⟨some, true, fun _ => none⟩
      ⟨"GET", "http://h/p", "h", [], "", "9.9.9.9:1"⟩ (fun _ => none)
      (fun _ => 59)).handlerRan = true ∧
    ((fun _ => 60) : ClientMap) (extractIP "9.9.9.9:1") ≥ maxRequestsPerMinute ∧
    (servedByProxy ⟨some, true, fun _ => none⟩
      ⟨"GET", "http://h/p", "h", [], "", "9.9.9.9:1"⟩ (fun _ => none)
      (fun _ => 60)).handlerRan = false :=
  ⟨by decide,
   ((rateLimiter_ceiling_behavior ⟨some, true, fun _ => none⟩
      ⟨"GET", "http://h/p", "h", [], "", "9.9.9.9:1"⟩ (fun _ => none)
      (fun _ => 59)).1 (by decide)).1,
   by decide,
   ((rateLimiter_ceiling_behavior ⟨some, true, fun _ => none⟩
      ⟨"GET", "http://h/p", "h", [], "", "9.9.9.9:1"⟩ (fun _ => none)
      (fun _ => 60)).2.1 (by decide)).1⟩

/-- C6: for an admitted request, the counter increment happens exactly
once regardless of later failure, and each failing path — URL parse
failure (client error), upstream dial/transport failure (server
error), body-read failure (server error) — terminates with its error
response, leaves the cache untouched, and attempts no retry (the
dispatch count is 0 or 1, never more). -/
theorem error_paths_terminate_cleanly (env : GEnv) (req : Request) (cache : Cache)
    (clients : ClientMap)
    (hAdm : clients (extractIP req.remoteAddr) < maxRequestsPerMinute) :
    (servedByProxy env req cache clients).clients =
      Function.update clients (extractIP req.remoteAddr)
        (clients (extractIP req.remoteAddr) + 1) ∧
    (env.parse (effectiveURI req) = none →
      observedStatus (servedByProxy env req cache clients).resp = statusBadRequest ∧
      (servedByProxy env req cache clients).resp.body = "Bad request\n" ∧
      (servedByProxy env req cache clients).cache = cache ∧
      (servedByProxy env req cache clients).upstreamCalls = 0) ∧
    (∀ canon, env.parse (effectiveURI req) = some canon →
      cache (cacheKey canon) = none → env.newReqOk = true →
      env.upstream (proxyReq req canon) = none →
      observedStatus (servedByProxy env req cache clients).resp = statusInternalServerError ∧
      (servedByProxy env req cache clients).resp.body = "Failed to forward request\n" ∧
      (servedByProxy env req cache clients).cache = cache ∧
      (servedByProxy env req cache clients).upstreamCalls = 1) ∧
    (∀ canon u, env.parse (effectiveURI req) = some canon →
      cache (cacheKey canon) = none → env.newReqOk = true →
      env.upstream (proxyReq req canon) = some u → u.body = none →
      observedStatus (servedByProxy env req cache clients).resp = statusInternalServerError ∧
      (servedByProxy env req cache clients).resp.body = "Failed to read response body\n" ∧
      (servedByProxy env req cache clients).cache = cache ∧
      (servedByProxy env req cache clients).upstreamCalls = 1) := by
  rw [servedByProxy, rateLimiter_admits _ _ _ _ hAdm]
  refine ⟨rfl, ?_, ?_, ?_⟩
  · intro hp
    refine ⟨?_, ?_, ?_, ?_⟩ <;>
      simp [handleRequestAndCache, hp, httpError, writeHeader, rwWrite, rwInit,
        observedStatus, empty_str_append]
  · intro canon hp hmiss hok hup
    refine ⟨?_, ?_, ?_, ?_⟩ <;>
      simp [handleRequestAndCache, hp, hmiss, hok, hup, httpError, writeHeader, rwWrite,
        rwInit, observedStatus, empty_str_append]
  · intro canon u hp hmiss hok hup hb
    refine ⟨?_, ?_, ?_, ?_⟩ <;>
      simp [handleRequestAndCache, hp, hmiss, hok, hup, hb, httpError, writeHeader, rwWrite,
        rwInit, observedStatus, empty_str_append]

/-- Witness for C6 at a concrete request whose URL fails to parse. -/
theorem error_paths_terminate_cleanly_witness :
    emptyClients (extractIP "9.9.9.9:1") < maxRequestsPerMinute ∧
    (⟨fun _ => none, true, fun _ => none⟩ : GEnv).parse
      (effectiveURI ⟨"GET", "http://h/p", "h", [], "", "9.9.9.9:1"⟩) = none ∧
    observedStatus (servedByProxy ⟨fun _ => none, true, fun _ => none⟩
      ⟨"GET", "http://h/p", "h", [], "", "9.9.9.9:1"⟩ (fun _ => none)
      emptyClients).resp = statusBadRequest :=
  ⟨by decide, rfl,
    ((error_paths_terminate_cleanly ⟨fun _ => none, true, fun _ => none⟩
      ⟨"GET", "http://h/p", "h", [], "", "9.9.9.9:1"⟩ (fun _ => none)
      emptyClients (by decide)).2.1 rfl).1⟩

/-- C8: the window reset replaces the whole counter map by an empty one
in one locked action — the result does not depend on the previous
counters and every IP reads zero immediately afterwards — so a client
rejected at the end of one window is admitted again after the
reset. -/
theorem reset_clears_all_counters (env : GEnv) (req : Request) (cache : Cache)
    (clients : ClientMap) :
    resetClients clients = emptyClients ∧
    (∀ ip, resetClients clients ip = 0) ∧
    resetActs = [Act.lock MutexId.clientsMu, Act.clientsReset, Act.unlock MutexId.clientsMu] ∧
    (clients (extractIP req.remoteAddr) ≥ maxRequestsPerMinute →
      (servedByProxy env req cache clients).handlerRan = false ∧
      (servedByProxy env req cache (resetClients clients)).handlerRan = true) := by
  refine ⟨rfl, fun ip => rfl, rfl, fun h => ⟨?_, ?_⟩⟩
  · rw [servedByProxy, rateLimiter_rejects _ _ _ _ h]
  · rw [servedByProxy,
      rateLimiter_admits _ _ _ _ (show (0 : Nat) < maxRequestsPerMinute by decide)]

/-- Witness for C8 at a concrete saturated counter map. -/
theorem reset_clears_all_counters_witness :
    ((fun _ => 60) : ClientMap) (extractIP "9.9.9.9:1") ≥ maxRequestsPerMinute ∧
    (servedByProxy ⟨some, true, fun _ => none⟩
      ⟨"GET", "http://h/p", "h", [], "", "9.9.9.9:1"⟩ (fun _ => none)
      (resetClients (fun _ => 60))).handlerRan = true :=
  ⟨by decide,
    ((reset_clears_all_counters ⟨some, true, fun _ => none⟩
      ⟨"GET", "http://h/p", "h", [], "", "9.9.9.9:1"⟩ (fun _ => none)
      (fun _ => 60)).2.2.2 (by decide)).2⟩

/-- Every stored per-client count is at most the ceiling. -/
def clientsBounded (clients : ClientMap) : Prop :=
  ∀ ip, clients ip ≤ maxRequestsPerMinute

/-- C10: the bound "no counter exceeds 60" holds initially and is
preserved by every request (increment guarded by count < 60,
rejection without increment otherwise) and by the window reset. -/
theorem counters_never_exceed_ceiling (env : GEnv) (req : Request) (cache : Cache)
    (clients : ClientMap) (hinv : clientsBounded clients) :
    clientsBounded emptyClients ∧
    clientsBounded (servedByProxy env req cache clients).clients ∧
    clientsBounded (resetClients clients) := by
  refine ⟨fun ip => by simp [emptyClients], ?_, fun ip => by simp [resetClients, emptyClients]⟩
  by_cases h : clients (extractIP req.remoteAddr) ≥ maxRequestsPerMinute
  · rw [servedByProxy, rateLimiter_rejects _ _ _ _ h]
    exact hinv
  · rw [servedByProxy, rateLimiter_admits _ _ _ _ (Nat.not_le.mp h)]
    intro ip
    show Function.update clients (extractIP req.remoteAddr)
      (clients (extractIP req.remoteAddr) + 1) ip ≤ maxRequestsPerMinute
    by_cases hip : ip = extractIP req.remoteAddr
    · subst hip
      rw [Function.update_same]
      have := Nat.not_le.mp h
      omega
    · rw [Function.update_noteq hip]
      exact hinv ip

/-- Witness for C10 starting from the empty counter map. -/
theorem counters_never_exceed_ceiling_witness :
    clientsBounded emptyClients ∧
    clientsBounded (servedByProxy ⟨some, true, fun _ => none⟩
      ⟨"GET", "http://h/p", "h", [], "", "9.9.9.9:1"⟩ (fun _ => none)
      emptyClients).clients :=
  ⟨fun _ => Nat.zero_le _,
    (counters_never_exceed_ceiling ⟨some, true, fun _ => none⟩
      ⟨"GET", "http://h/p", "h", [], "", "9.9.9.9:1"⟩ (fun _ => none)
      emptyClients (fun _ => Nat.zero_le _)).2.1⟩

/-- C9 (amended): the Cache Store lock's critical sections are pure map
access — no I/O ever happens while it is held, on any request path of
either handler — and the reset's ClientCounter critical section is
I/O-free; but the rate limiter performs its count log write while
holding the ClientCounter lock, on every request, so the no-I/O rule
fails for that lock. -/
theorem lock_io_discipline (env : GEnv) (cenv : CEnv) (req : Request) (cache : Cache)
    (clients : ClientMap) :
    noIOLocked MutexId.cacheMu 0 (servedByProxy env req cache clients).acts = true ∧
    noIOLocked MutexId.cacheMu 0 (servedByConnect cenv req cache clients).acts = true ∧
    noIOLocked MutexId.clientsMu 0 resetActs = true ∧
    noIOLocked MutexId.clientsMu 0 (servedByProxy env req cache clients).acts = false := by
  refine ⟨?_, ?_, by decide, ?_⟩
  · by_cases hadm : clients (extractIP req.remoteAddr) ≥ maxRequestsPerMinute
    · rw [servedByProxy, rateLimiter_rejects _ _ _ _ hadm]
      simp [noIOLocked, logActs, ioAct]
    · rw [servedByProxy, rateLimiter_admits _ _ _ _ (Nat.not_le.mp hadm)]
      rcases hp : env.parse (effectiveURI req) with _ | canon
      · simp [handleRequestAndCache, hp, noIOLocked, logActs, ioAct]
      · rcases hc : cache (cacheKey canon) with _ | b
        · cases hn : env.newReqOk
          · simp [handleRequestAndCache, hp, hc, hn, noIOLocked, logActs, lookupActs, ioAct]
          · rcases hu : env.upstream (proxyReq req canon) with _ | u
            · simp [handleRequestAndCache, hp, hc, hn, hu, noIOLocked, logActs, lookupActs, ioAct]
            · rcases hb : u.body with _ | bb
              · simp [handleRequestAndCache, hp, hc, hn, hu, hb, noIOLocked, logActs,
                  lookupActs, ioAct]
              · simp [handleRequestAndCache, hp, hc, hn, hu, hb, noIOLocked, logActs,
                  lookupActs, ioAct]
        · simp [handleRequestAndCache, hp, hc, noIOLocked, logActs, lookupActs, ioAct]
  · by_cases hadm : clients (extractIP req.remoteAddr) ≥ maxRequestsPerMinute
    · rw [servedByConnect, rateLimiter_rejects _ _ _ _ hadm]
      simp [noIOLocked, logActs, ioAct]
    · rw [servedByConnect, rateLimiter_admits _ _ _ _ (Nat.not_le.mp hadm)]
      cases hd : cenv.dialOk
      · simp [handleConnect, hd, noIOLocked, logActs, ioAct]
      · cases hs : cenv.hijackSupported
        · simp [handleConnect, hd, hs, noIOLocked, logActs, ioAct]
        · cases hk : cenv.hijackOk
          · simp [handleConnect, hd, hs, hk, noIOLocked, logActs, ioAct]
          · simp [handleConnect, hd, hs, hk, noIOLocked, logActs, ioAct]
  · by_cases hadm : clients (extractIP req.remoteAddr) ≥ maxRequestsPerMinute
    · rw [servedByProxy, rateLimiter_rejects _ _ _ _ hadm]
      simp [noIOLocked, logActs, ioAct]
    · rw [servedByProxy, rateLimiter_admits _ _ _ _ (Nat.not_le.mp hadm)]
      simp [noIOLocked, logActs, ioAct]

/-- C9 counterexample: at a concrete admitted request, the rate limiter
writes its count log line while holding the ClientCounter lock, so
the claimed "no I/O while either lock is held" property evaluates to
false on that request's trace. -/
theorem lock_io_discipline_counterexample :
    noIOLocked MutexId.clientsMu 0
      (servedByProxy ⟨fun _ => none, true, fun _ => none⟩
        ⟨"GET", "http://h/p", "h", [], "", "9.9.9.9:1"⟩ (fun _ => none)
        emptyClients).acts = false := by decide

/-! ## Digest-length and collision facts about `cacheKey` -/

/-- The SHA-1 digest always has exactly 20 bytes. -/
theorem sha1Bytes_length (msg : List Nat) : (sha1Bytes msg).length = 20 := by
  simp [sha1Bytes, wordBytes]

/-- Pack a byte list into a natural number, base 256 (bytes reduced
mod 256). -/
def packBytes (l : List Nat) : Nat :=
  l.foldr (fun b acc => b % 256 + 256 * acc) 0

/-- The packed value of a list is below 256 to its length. -/
theorem packBytes_lt (l : List Nat) : packBytes l < 256 ^ l.length := by
  induction l with
  | nil => simp [packBytes]
  | cons b l ih =>
    have hb : b % 256 < 256 := Nat.mod_lt b (by decide)
    have h2 : 256 * (packBytes l + 1) ≤ 256 * 256 ^ l.length :=
      Nat.mul_le_mul_left 256 (Nat.succ_le_of_lt ih)
    have hstep : packBytes (b :: l) = b % 256 + 256 * packBytes l := rfl
    calc packBytes (b :: l) = b % 256 + 256 * packBytes l := hstep
      _ < 256 * (packBytes l + 1) := by omega
      _ ≤ 256 * 256 ^ l.length := h2
      _ = 256 ^ (b :: l).length := by
          simp [List.length_cons, pow_succ]
          ring

/-- Equal packed values of equally long lists force equal bytes mod
256. -/
theorem packBytes_inj_mod (l1 : List Nat) :
    ∀ l2 : List Nat, l1.length = l2.length → packBytes l1 = packBytes l2 →
      l1.map (fun b => b % 256) = l2.map (fun b => b % 256) := by
  induction l1 with
  | nil =>
    intro l2 hlen _
    cases l2 with
    | nil => rfl
    | cons c l2 => simp at hlen
  | cons b l1 ih =>
    intro l2 hlen hpack
    cases l2 with
    | nil => simp at hlen
    | cons c l2 =>
      have hb : b % 256 < 256 := Nat.mod_lt b (by decide)
      have hc : c % 256 < 256 := Nat.mod_lt c (by decide)
      have hpack' : b % 256 + 256 * packBytes l1 = c % 256 + 256 * packBytes l2 := hpack
      have hhead : b % 256 = c % 256 := by omega
      have htail : packBytes l1 = packBytes l2 := by omega
      have hlen' : l1.length = l2.length := by simpa using hlen
      simp [hhead, ih l2 hlen' htail]

/-- The hex encoding of a byte depends only on its value mod 256. -/
theorem hexByteChars_mod (b : Nat) : hexByteChars b = hexByteChars (b % 256) := by
  unfold hexByteChars
  have h1 : b / 16 % 16 = b % 256 / 16 % 16 := by omega
  have h2 : b % 16 = b % 256 % 16 := by omega
  rw [h1, h2]

/-- Hex encoding factors through reduction mod 256. -/
theorem bytesToHex_mod (l : List Nat) :
    bytesToHex l = bytesToHex (l.map (fun b => b % 256)) := by
  unfold bytesToHex
  rw [List.map_map]
  congr 1
  have : hexByteChars ∘ (fun b => b % 256) = fun b => hexByteChars (b % 256) := rfl
  rw [this, List.map_congr_left (fun b _ => hexByteChars_mod b)]

/-- Pairwise-distinct URL strings indexed by a natural number. -/
def urlOfNat (n : Nat) : String :=
  String.mk ("http://collision.test/?q=").data ++ String.mk (List.replicate n 'a')

/-- Distinct indices give distinct URL strings. -/
theorem urlOfNat_inj {m n : Nat} (h : urlOfNat m = urlOfNat n) : m = n := by
  have hd : ("http://collision.test/?q=").data ++ List.replicate m 'a'
      = ("http://collision.test/?q=").data ++ List.replicate n 'a' := by
    have := congrArg String.data h
    simpa [urlOfNat] using this
  have := congrArg List.length hd
  simp at this
  exact this

/-- C5 counterexample: the digest has fixed length, so by pigeonhole the
key function cannot send all distinct URLs to distinct digests; the
claimed universal distinctness is false. -/
theorem cacheKey_not_injective :
    ¬ ∀ u1 u2 : String, u1 ≠ u2 → cacheKey u1 ≠ cacheKey u2 := by
  intro hinj
  obtain ⟨m, n, hmn, hf⟩ := Finite.exists_ne_map_eq_of_infinite
    (fun k : Nat => (⟨packBytes (sha1Bytes (strBytes (urlOfNat k))), by
      have h := packBytes_lt (sha1Bytes (strBytes (urlOfNat k)))
      rwa [sha1Bytes_length] at h⟩ : Fin (256 ^ 20)))
  have hpack : packBytes (sha1Bytes (strBytes (urlOfNat m)))
      = packBytes (sha1Bytes (strBytes (urlOfNat n))) := by
    simpa using congrArg Fin.val hf
  have hlen : (sha1Bytes (strBytes (urlOfNat m))).length
      = (sha1Bytes (strBytes (urlOfNat n))).length := by
    rw [sha1Bytes_length, sha1Bytes_length]
  have hmod := packBytes_inj_mod _ _ hlen hpack
  have hkey : cacheKey (urlOfNat m) = cacheKey (urlOfNat n) := by
    unfold cacheKey
    rw [bytesToHex_mod, hmod, ← bytesToHex_mod]
  exact hinj (urlOfNat m) (urlOfNat n) (fun h => hmn (urlOfNat_inj h)) hkey

/-- Hex-encoding a byte list yields two characters per byte. -/
theorem hexChars_length (l : List Nat) :
    ((l.map hexByteChars).flatten).length = 2 * l.length := by
  induction l with
  | nil => simp
  | cons b l ih =>
    simp [hexByteChars, ih]
    omega

set_option maxRecDepth 1000000 in
/-- C5 (amended): the key function is deterministic over the URL's
canonical string form and always yields a fixed-length 40-hex-char
digest; distinctness of digests for different URLs holds on the
concrete sanity checks (a single-character query-string difference,
and a one-character scheme difference), though not universally. -/
theorem cacheKey_deterministic_fixed_length (u v : String) (h : u = v) :
    cacheKey u = cacheKey v ∧
    (cacheKey u).length = 40 ∧
    cacheKey "http://example.com/?a=1" ≠ cacheKey "http://example.com/?a=2" ∧
    cacheKey "http://example.com/x" ≠ cacheKey "https://example.com/x" := by
  refine ⟨by rw [h], ?_, by decide, by decide⟩
  show ((sha1Bytes (strBytes u)).map hexByteChars).flatten.length = 40
  rw [hexChars_length, sha1Bytes_length]

/-- Witness for C5 at a concrete URL string. -/
theorem cacheKey_deterministic_fixed_length_witness :
    ("http://h/" : String) = "http://h/" ∧ (cacheKey "http://h/").length = 40 :=
  ⟨rfl, (cacheKey_deterministic_fixed_length "http://h/" "http://h/" rfl).2.1⟩
